import Mathlib

/-!
Verification of the contact/notes assistant's core data model
(`bot.models.address_book`, `bot.models.record`, `bot.models.note_book`,
`bot.models.phone`, `bot.models.birthday`, `bot.models.email`,
`bot.models.address`, `bot.models.name`, and the CLI search handler).

Python strings are modelled as `List Char`, dictionaries as association
lists (insertion ordered, unique keys), raised `ValueError`s as the
`Except.error` branch carrying the exception's message, and the calendar
as proleptic-Gregorian dates with `datetime.date.toordinal` arithmetic.
-/

set_option maxRecDepth 4096

namespace Assistant

/-- Python strings, modelled as lists of characters. -/
abbrev Str := List Char

/-- Coerce a Lean string literal into the model's string type. -/
def str (s : String) : Str := s.data

/-- `s.lower()` modelled character-wise. -/
def lowerStr (s : Str) : Str := s.map Char.toLower

/-- `s.startswith(p)`: `p` is a prefix of `s`. -/
def startsWith (p s : Str) : Bool :=
  match p, s with
  | [], _ => true
  | _ :: _, [] => false
  | a :: as, b :: bs => a == b && startsWith as bs

/-- `s.startswith(tuple(ps))`: true when some candidate in `ps` is a
prefix of `s`; false on an empty tuple, as in Python. -/
def startsWithAny (s : Str) (ps : List Str) : Bool :=
  ps.any (fun p => startsWith p s)

/-- `str.split(sep)` for a one-character separator. -/
def splitOnChar (c : Char) : Str → List Str
  | [] => [[]]
  | a :: rest =>
    if a = c then [] :: splitOnChar c rest
    else
      match splitOnChar c rest with
      | [] => [[a]]
      | h :: t => (a :: h) :: t

/-- Numeric value of a string of decimal digits. -/
def natOfDigits (s : Str) : Nat :=
  s.foldl (fun n c => n * 10 + (c.toNat - 48)) 0

/-- The ASCII digit character for `d < 10`. -/
def digitChar (d : Nat) : Char := Char.ofNat (48 + d)

/-- Zero-padded two-digit decimal rendering (strftime `%d` / `%m`). -/
def pad2 (n : Nat) : Str := [digitChar (n / 10 % 10), digitChar (n % 10)]

/-- Zero-padded four-digit decimal rendering (strftime `%Y`). -/
def pad4 (n : Nat) : Str :=
  [digitChar (n / 1000 % 10), digitChar (n / 100 % 10),
   digitChar (n / 10 % 10), digitChar (n % 10)]

/-! ## Calendar dates (`datetime.date`) -/

/-- A calendar date, as `datetime.date`. -/
structure SDate where
  year : Nat
  month : Nat
  day : Nat
deriving DecidableEq, Repr, Inhabited

/-- Gregorian leap-year rule. -/
def isLeap (y : Nat) : Bool :=
  y % 4 == 0 && (y % 100 != 0 || y % 400 == 0)

/-- Number of days in a month of a given year. -/
def daysInMonth (y m : Nat) : Nat :=
  if m = 2 then (if isLeap y then 29 else 28)
  else if m = 4 ∨ m = 6 ∨ m = 9 ∨ m = 11 then 30
  else 31

/-- `date(y, m, d)`: `some` on a valid proleptic-Gregorian date in
Python's supported year range, `none` when the constructor raises
`ValueError`. -/
def mkDate (y m d : Nat) : Option SDate :=
  if 1 ≤ y ∧ y ≤ 9999 ∧ 1 ≤ m ∧ m ≤ 12 ∧ 1 ≤ d ∧ d ≤ daysInMonth y m then
    some ⟨y, m, d⟩
  else none

/-- Days in the months of year `y` strictly before month `m`. -/
def daysBeforeMonth (y m : Nat) : Nat :=
  (List.range m).foldl (fun acc k => if k = 0 then acc else acc + daysInMonth y k) 0

/-- `date.toordinal()`: day number with `0001-01-01` as day 1. -/
def toOrdinal (dt : SDate) : Nat :=
  365 * (dt.year - 1) + (dt.year - 1) / 4 - (dt.year - 1) / 100 + (dt.year - 1) / 400
    + daysBeforeMonth dt.year dt.month + dt.day

/-- `date.fromordinal(n)` for `n ≥ 1` (civil-from-days algorithm). -/
def fromOrdinal (n : Nat) : SDate :=
  let z := n + 305
  let era := z / 146097
  let doe := z % 146097
  let yoe := (doe - doe / 1460 + doe / 36524 - doe / 146096) / 365
  let y := yoe + era * 400
  let doy := doe - (365 * yoe + yoe / 4 - yoe / 100)
  let mp := (5 * doy + 2) / 153
  let d := doy - (153 * mp + 2) / 5 + 1
  let m := if mp < 10 then mp + 3 else mp - 9
  if m ≤ 2 then ⟨y + 1, m, d⟩ else ⟨y, m, d⟩

/-- `dt + timedelta(days=k)`. -/
def addDays (dt : SDate) (k : Nat) : SDate := fromOrdinal (toOrdinal dt + k)

/-- `date.weekday()`: Monday is 0, Sunday is 6. -/
def weekday (dt : SDate) : Nat := (toOrdinal dt + 6) % 7

/-- Python `date <` comparison (lexicographic on year, month, day). -/
def dateLt (a b : SDate) : Bool :=
  a.year < b.year ||
    (a.year == b.year && (a.month < b.month ||
      (a.month == b.month && a.day < b.day)))

/-- Python `date <=` comparison. -/
def dateLe (a b : SDate) : Bool := dateLt a b || a == b

/-- `dt.strftime('%d.%m.%Y')`. -/
def renderDateDMY (dt : SDate) : Str :=
  pad2 dt.day ++ ['.'] ++ pad2 dt.month ++ ['.'] ++ pad4 dt.year

/-! ## Field constructors (`bot.models.phone` / `email` / `address` / `name` /
`birthday`)

Each models the Python class constructor: `Except.error msg` stands for a
raised `ValueError(msg)`, `Except.ok v` for a successfully constructed field
holding `v`. -/

/-- `Phone.__init__`: requires `re.fullmatch(r'\d{10}', value)` and stores
the string unchanged. -/
def mkPhone (value : Str) : Except Str Str :=
  if value.length = 10 ∧ value.all Char.isDigit then .ok value
  else .error (str "Phone number must be 10 digits")

/-- `Name.__init__`: rejects the empty string, stores the value unchanged. -/
def mkName (value : Str) : Except Str Str :=
  if value = [] then .error (str "Name cannot be empty") else .ok value

/-- Character class `[a-zA-Z0-9_.+-]` of the email local part. -/
def emailLocalChar (c : Char) : Bool :=
  c.isAlpha || c.isDigit || c == '_' || c == '.' || c == '+' || c == '-'

/-- Character class `[a-zA-Z0-9-]` of the email domain label. -/
def emailDomainChar (c : Char) : Bool :=
  c.isAlpha || c.isDigit || c == '-'

/-- Character class `[a-zA-Z0-9-.]` of the email tail. -/
def emailTailChar (c : Char) : Bool :=
  c.isAlpha || c.isDigit || c == '-' || c == '.'

/-- `re.fullmatch(r'[a-zA-Z0-9_.+-]+@[a-zA-Z0-9-]+\.[a-zA-Z0-9-.]+', s)`:
since `@` appears in no class and `.` not in the domain-label class, a match
decomposes uniquely at the first `@` and the first following `.`. -/
def emailMatches (s : Str) : Bool :=
  match splitOnChar '@' s with
  | [local_, rest] =>
    (!local_.isEmpty) && local_.all emailLocalChar &&
      (match splitOnChar '.' rest with
       | [] => false
       | dom :: tailParts =>
         (!tailParts.isEmpty) &&
           (!dom.isEmpty) && dom.all emailDomainChar &&
           (let t := (tailParts.map (fun p => p ++ ['.'])).flatten.dropLast
            (!t.isEmpty) && t.all emailTailChar)
       )
  | _ => false

/-- `Email.__init__`. -/
def mkEmail (address : Str) : Except Str Str :=
  if emailMatches address then .ok address
  else .error (str "Invalid email format. Expected format: example@domain.com")

/-- Character class `[\w\s,]` of `Address.__init__`'s pattern (ASCII
approximation of `\w`). -/
def addressChar (c : Char) : Bool :=
  c.isAlpha || c.isDigit || c == '_' || c.isWhitespace || c == ','

/-- `Address.__init__`: `re.fullmatch(r'^[\w\s,]*$', address)`. -/
def mkAddress (address : Str) : Except Str Str :=
  if address.all addressChar then .ok address
  else .error (str "Invalid address format. The address must contain only alphanumeric characters. Spaces, commas, and numbers are allowed. Please ensure your address follows this pattern.")

/-- `datetime.strptime(s, '%d.%m.%Y')`, field extraction: `%d` is one or two
digits valued 1..31, `%m` one or two digits valued 1..12, `%Y` exactly four
digits, separated by literal dots; `none` when the pattern does not match. -/
def parseDMY (s : Str) : Option (Nat × Nat × Nat) :=
  match splitOnChar '.' s with
  | [dp, mp, yp] =>
    if (!dp.isEmpty) && dp.length ≤ 2 && dp.all Char.isDigit &&
       (!mp.isEmpty) && mp.length ≤ 2 && mp.all Char.isDigit &&
       yp.length == 4 && yp.all Char.isDigit then
      let d := natOfDigits dp
      let m := natOfDigits mp
      if 1 ≤ d ∧ d ≤ 31 ∧ 1 ≤ m ∧ m ≤ 12 then some (d, m, natOfDigits yp)
      else none
    else none
  | _ => none

/-- `Birthday.__init__(value)` with `today = datetime.now().date()`:
parses `DD.MM.YYYY`, requires an existing calendar date not after today,
and stores the parsed date. Error messages follow the Python paths: a
pattern mismatch is re-raised as the fixed format message, a
day-out-of-range or future date propagates its own message. -/
def mkBirthday (today : SDate) (value : Str) : Except Str SDate :=
  match parseDMY value with
  | none => .error (str "Invalid date format. Use DD.MM.YYYY")
  | some (d, m, y) =>
    match mkDate y m d with
    | none =>
      if y = 0 then .error (str "year 0 is out of range")
      else .error (str "day is out of range for month")
    | some bd =>
      if dateLt today bd then .error (str "Birthday date cannot be in the future")
      else .ok bd

/-! ## Records (`bot.models.record.Record`) -/

/-- A contact record: a name, phone and email lists, optional address and
optional birthday (the birthday held as its parsed date). -/
structure Record where
  name : Str
  phones : List Str
  emails : List Str
  address : Option Str
  birthday : Option SDate
deriving DecidableEq, Repr, Inhabited

/-- `Record.__init__(name)` (after a successful `Name` construction). -/
def mkRecord (name : Str) : Record :=
  ⟨name, [], [], none, none⟩

/-- `Record.add_phone`: validates through `Phone` and appends. -/
def addPhone (r : Record) (number : Str) : Except Str Record :=
  (mkPhone number).map fun v => { r with phones := r.phones ++ [v] }

/-- `Record.remove_phone`: drops every phone equal to the argument. -/
def removePhone (r : Record) (number : Str) : Record :=
  { r with phones := r.phones.filter (fun p => p != number) }

/-- `Record.edit_phone`: add the new number first, then remove the old. -/
def editPhone (r : Record) (oldNumber newNumber : Str) : Except Str Record :=
  (addPhone r newNumber).map (fun r' => removePhone r' oldNumber)

/-- `Record.add_email`: validates through `Email` and appends. -/
def addEmail (r : Record) (address : Str) : Except Str Record :=
  (mkEmail address).map fun v => { r with emails := r.emails ++ [v] }

/-- `Record.remove_email`: drops every email equal to the argument. -/
def removeEmail (r : Record) (address : Str) : Record :=
  { r with emails := r.emails.filter (fun e => e != address) }

/-- `Record.edit_email`: add the new address first, then remove the old. -/
def editEmail (r : Record) (oldAddress newAddress : Str) : Except Str Record :=
  (addEmail r newAddress).map (fun r' => removeEmail r' oldAddress)

/-- `Record.add_address` / `Record.edit_address`: overwrite the single slot. -/
def editAddress (r : Record) (text : Str) : Except Str Record :=
  (mkAddress text).map fun v => { r with address := some v }

/-- `Record.add_birthday`: constructs a `Birthday` only when none is set,
otherwise raises `ValueError("Birthday is already set")`. -/
def addBirthday (today : SDate) (r : Record) (value : Str) : Except Str Record :=
  match r.birthday with
  | none => (mkBirthday today value).map fun d => { r with birthday := some d }
  | some _ => .error (str "Birthday is already set")

/-! ## The address book (`bot.models.address_book.AddressBook`)

A `dict` keyed by contact name, modelled as an insertion-ordered
association list with unique keys. -/

/-- The address book's underlying `dict`. -/
abbrev AddressBook := List (Str × Record)

/-- `self.data[k] = v`: replace in place when the key exists, else append. -/
def dictInsert (k : Str) (v : Record) : AddressBook → AddressBook
  | [] => [(k, v)]
  | (k', v') :: t => if k' = k then (k, v) :: t else (k', v') :: dictInsert k v t

/-- `self.data.get(k, None)`. -/
def dictGet (k : Str) : AddressBook → Option Record
  | [] => none
  | (k', v) :: t => if k' = k then some v else dictGet k t

/-- `del self.data[k]` on a present key (keys are unique in a `dict`). -/
def dictDelete (k : Str) : AddressBook → AddressBook
  | [] => []
  | (k', v) :: t => if k' = k then t else (k', v) :: dictDelete k t

/-- `AddressBook.add_record`: keys the record by its name. -/
def addRecord (book : AddressBook) (r : Record) : AddressBook :=
  dictInsert r.name r book

/-- `AddressBook.find`: exact-key lookup, `none` when absent. -/
def findRecord (book : AddressBook) (name : Str) : Option Record :=
  dictGet name book

/-- `AddressBook.delete`: removes the key when present, no-op otherwise. -/
def deleteRecord (book : AddressBook) (name : Str) : AddressBook :=
  if (dictGet name book).isSome then dictDelete name book else book

/-- Truthiness of the optional `address_book` argument of
`Record.edit_field`: `None` and an empty book are both falsy. -/
def truthyBook : Option AddressBook → Bool
  | none => false
  | some book => !book.isEmpty

/-- `Record.edit_field(field, old_value, new_value, address_book)`.
`old_value`/`new_value` are falsy exactly when empty. The result carries
the updated record, the (possibly re-keyed) address book argument and the
returned message; `Except.error` models a raised `ValueError`. -/
def editField (today : SDate) (r : Record) (field oldValue newValue : Str)
    (book? : Option AddressBook) : Except Str (Record × Option AddressBook × Str) :=
  if field = str "name" then
    if !truthyBook book? then
      .error (str "AddressBook is required to change the contact's name.")
    else if newValue ≠ [] then
      let oldName := r.name
      let book := book?.getD []
      let r' := { r with name := newValue }
      let book' := addRecord (deleteRecord book oldName) r'
      .ok (r', some book',
        str "Name updated from '" ++ oldName ++ str "' to '" ++ newValue ++ str "'.")
    else .ok (r, book?, str "No name change applied.")
  else if field = str "phones" then
    if newValue ≠ [] then
      if oldValue ≠ [] then
        (editPhone r oldValue newValue).map fun r' =>
          (r', book?, str "Phone number '" ++ oldValue ++ str "' updated to '"
            ++ newValue ++ str "'.")
      else
        (addPhone r newValue).map fun r' =>
          (r', book?, str "Phone number '" ++ newValue ++ str "' added.")
    else if oldValue ≠ [] then
      .ok (removePhone r oldValue, book?,
        str "Phone number '" ++ oldValue ++ str "' removed.")
    else .ok (r, book?, str "Unknown action.")
  else if field = str "emails" then
    if newValue ≠ [] then
      if oldValue ≠ [] then
        (editEmail r oldValue newValue).map fun r' =>
          (r', book?, str "Email '" ++ oldValue ++ str "' updated to '"
            ++ newValue ++ str "'.")
      else
        (addEmail r newValue).map fun r' =>
          (r', book?, str "Email '" ++ newValue ++ str "' added.")
    else if oldValue ≠ [] then
      .ok (removeEmail r oldValue, book?,
        str "Email '" ++ oldValue ++ str "' removed.")
    else .ok (r, book?, str "Unknown action.")
  else if field = str "address" then
    if newValue ≠ [] then
      (editAddress r newValue).map fun r' =>
        (r', book?, str "Address updated to '" ++ newValue ++ str "'.")
    else .ok ({ r with address := none }, book?, str "Address removed.")
  else if field = str "birthday" then
    if newValue ≠ [] then
      (mkBirthday today newValue).map fun d =>
        ({ r with birthday := some d }, book?,
          str "Birthday updated to '" ++ newValue ++ str "'.")
    else .ok ({ r with birthday := none }, book?, str "Birthday removed.")
  else .ok (r, book?, str "Unknown action.")

/-! ## Multi-field search (`AddressBook.search_in_fields` and the CLI
handler `search_contact`) -/

/-- The three possible returns of `search_in_fields`: the empty-book
message string, a printed table of the matching records (returned as
`""` in Python), or Python's `None`. -/
inductive SearchResult where
  | message (s : Str)
  | table (records : List Record)
  | nullResult
deriving DecidableEq, Repr

/-- The per-record check of `search_in_fields`, given the already
lowercased search terms: OR of the name, phones, emails, address and
birthday checks, each a case-insensitive prefix test — except that the
rendered birthday is compared without lowercasing (it has no letters). -/
def recordMatches (search : List Str) (r : Record) : Bool :=
  let nameCheck := startsWithAny (lowerStr r.name) search
  let phonesCheck := (!r.phones.isEmpty) &&
    r.phones.any (fun p => startsWithAny (lowerStr p) search)
  let emailsCheck := (!r.emails.isEmpty) &&
    r.emails.any (fun e => startsWithAny (lowerStr e) search)
  let addressCheck :=
    match r.address with
    | none => false
    | some a => startsWithAny (lowerStr a) search
  let birthdayCheck :=
    match r.birthday with
    | none => false
    | some d => startsWithAny (renderDateDMY d) search
  nameCheck || phonesCheck || emailsCheck || addressCheck || birthdayCheck

/-- The `matching_records` list accumulated by `search_in_fields`. -/
def matchingRecords (args : List Str) (book : AddressBook) : List Record :=
  (book.map Prod.snd).filter (recordMatches (args.map lowerStr))

/-- `AddressBook.search_in_fields(args)`. -/
def searchInFields (args : List Str) (book : AddressBook) : SearchResult :=
  if book.isEmpty then .message (str "No contacts found.")
  else
    let m := matchingRecords args book
    if m.length > 0 then .table m else .nullResult

/-- The CLI handler `search_contact` (inside its `input_error` wrapper):
raises `ValueError("No search input provided.")` on an empty argument
list, otherwise delegates to `search_in_fields`, converting its `None`
into the "No matches found." message. -/
def searchContact (args : List Str) (book : AddressBook) : Except Str SearchResult :=
  if args.length = 0 then .error (str "No search input provided.")
  else
    match searchInFields args book with
    | .nullResult => .ok (.message (str "No matches found."))
    | r => .ok r

/-! ## Upcoming birthdays (`AddressBook.get_upcoming_birthdays`) -/

/-- `AddressBook._adjust_to_weekday`: Saturday rolls +2 days, Sunday +1. -/
def adjustToWeekday (dt : SDate) : SDate :=
  if weekday dt = 5 then addDays dt 2
  else if weekday dt = 6 then addDays dt 1
  else dt

/-- `AddressBook._is_date_within_days(target_date, days)` for a given
`today`: `none` when a `date` construction raises `ValueError`. -/
def isDateWithinDays (today target : SDate) (days : Nat) : Option Bool :=
  match mkDate today.year target.month target.day with
  | none => none
  | some dateThisYear =>
    if dateLt dateThisYear today then
      match mkDate (today.year + 1) target.month target.day with
      | none => none
      | some rolled =>
        some (dateLe today rolled && dateLe rolled (addDays today days))
    else
      some (dateLe today dateThisYear && dateLe dateThisYear (addDays today days))

/-- The per-record body of `get_upcoming_birthdays`: `some c` exactly when
a row with congratulation date `c` is added for a birthday `bday`, `none`
when the record is filtered out or a `ValueError` is caught. -/
def upcomingEntry (today bday : SDate) (days : Nat) : Option SDate :=
  match isDateWithinDays today bday days with
  | none => none
  | some false => none
  | some true =>
    match mkDate today.year bday.month bday.day with
    | none => none
    | some birthdayThisYear =>
      let congrat :=
        if dateLt birthdayThisYear today then
          mkDate (today.year + 1) bday.month bday.day
        else some birthdayThisYear
      match congrat with
      | none => none
      | some c => some (adjustToWeekday c)

/-- The rows (name, congratulation date) of the table built by
`get_upcoming_birthdays(days)`. -/
def upcomingRows (today : SDate) (book : AddressBook) (days : Nat) :
    List (Str × SDate) :=
  book.filterMap fun p =>
    match p.2.birthday with
    | none => none
    | some b => (upcomingEntry today b days).map (fun c => (p.2.name, c))

/-! ## The notebook (`bot.models.note_book.NoteBook`) -/

/-- A note: identifier, text, and its (ordered) tag list. -/
structure Note where
  id : Str
  text : Str
  tags : List Str
deriving DecidableEq, Repr, Inhabited

/-- The notebook's underlying `dict`, keyed by note id. -/
abbrev NoteBook := List (Str × Note)

/-- `self.data[k] = v` for notebooks. -/
def dictInsertNote (k : Str) (v : Note) : NoteBook → NoteBook
  | [] => [(k, v)]
  | (k', v') :: t => if k' = k then (k, v) :: t else (k', v') :: dictInsertNote k v t

/-- `self.data[k]` lookup for notebooks. -/
def dictGetNote (k : Str) : NoteBook → Option Note
  | [] => none
  | (k', v) :: t => if k' = k then some v else dictGetNote k t

/-- `'#' not in tag` normalization: prepend `#` when the tag contains no
`#` anywhere. -/
def normalizeTag (tag : Str) : Str :=
  if tag.contains '#' then tag else '#' :: tag

/-- The loop body of `NoteBook.add_tag` over one tag: skip when the tag,
as supplied, is already present; otherwise append its normalized form. -/
def addTagStep (cur : List Str) (tag : Str) : List Str :=
  if tag ∈ cur then cur else cur ++ [normalizeTag tag]

/-- The tag-list update performed by `NoteBook.add_tag`. -/
def applyAddTags (cur : List Str) (tags : List Str) : List Str :=
  tags.foldl addTagStep cur

/-- `NoteBook.add_tag(note_id, tags)`: `KeyError` when the id is absent. -/
def addTag (nb : NoteBook) (noteId : Str) (tags : List Str) : Except Str NoteBook :=
  match dictGetNote noteId nb with
  | none => .error (str "KeyError")
  | some note =>
    .ok (dictInsertNote noteId { note with tags := applyAddTags note.tags tags } nb)

/-- `list.remove(x)`: drop the first occurrence of `x`. -/
def removeFirst (xs : List Str) (x : Str) : List Str :=
  match xs with
  | [] => []
  | y :: t => if y = x then t else y :: removeFirst t x

/-- The tag-list update of `NoteBook.delete_tag`: a tag already present
(as supplied) is skipped by `continue`; otherwise its normalized form is
passed to `list.remove`, which raises `ValueError` when absent. -/
def applyDelTags (cur : List Str) : List Str → Except Str (List Str)
  | [] => .ok cur
  | tag :: rest =>
    if tag ∈ cur then applyDelTags cur rest
    else
      let t := normalizeTag tag
      if t ∈ cur then applyDelTags (removeFirst cur t) rest
      else .error (str "list.remove(x): x not in list")

/-- `NoteBook.delete_tag(note_id, tags)`: `KeyError` when the id is
absent; the tag-list update can raise `ValueError`. -/
def deleteTag (nb : NoteBook) (noteId : Str) (tags : List Str) : Except Str NoteBook :=
  match dictGetNote noteId nb with
  | none => .error (str "KeyError")
  | some note =>
    (applyDelTags note.tags tags).map fun ts =>
      dictInsertNote noteId { note with tags := ts } nb

/-! ## Spec-side definitions

These follow the specification's wording, to be compared with the
source-derived definitions above. -/

/-- Spec wording: `field` "starts case-insensitively with" the term `t`. -/
def startsCI (t field : Str) : Bool :=
  startsWith (lowerStr t) (lowerStr field)

/-- Spec wording for a search match: at least one of the record's name,
one of its phones, one of its emails, its address, or its birthday
rendered as `DD.MM.YYYY` starts case-insensitively with at least one of
the terms. -/
def specMatches (args : List Str) (r : Record) : Bool :=
  args.any fun t =>
    startsCI t r.name ||
    r.phones.any (startsCI t) ||
    r.emails.any (startsCI t) ||
    (match r.address with
     | none => false
     | some a => startsCI t a) ||
    (match r.birthday with
     | none => false
     | some d => startsCI t (renderDateDMY d))

/-- Spec wording: this year's occurrence of the birthday's month/day,
rolled to next year's occurrence when it already passed relative to
today; `none` when that calendar day does not exist in the target year. -/
def occurrenceSpec (today bday : SDate) : Option SDate :=
  match mkDate today.year bday.month bday.day with
  | none => none
  | some thisYear =>
    if dateLt thisYear today then mkDate (today.year + 1) bday.month bday.day
    else some thisYear

/-- Spec wording: the occurrence shifted +2 days when it is a Saturday
and +1 day when it is a Sunday, otherwise unshifted. -/
def shiftSpec (occ : SDate) : SDate :=
  if weekday occ = 5 then addDays occ 2
  else if weekday occ = 6 then addDays occ 1
  else occ

/-- Spec wording for the upcoming-birthday rows: a record with a birthday
is kept exactly when its occurrence falls within `[today, today + days]`
inclusive, and its reported congratulation date is the weekend-shifted
occurrence (the shift applied after the window check). -/
def specUpcomingRows (today : SDate) (book : AddressBook) (days : Nat) :
    List (Str × SDate) :=
  book.filterMap fun p =>
    match p.2.birthday with
    | none => none
    | some b =>
      match occurrenceSpec today b with
      | none => none
      | some occ =>
        if dateLe today occ && dateLe occ (addDays today days) then
          some (p.2.name, shiftSpec occ)
        else none

/-- Spec wording for a valid phone: a string of exactly 10 decimal
digits. -/
def phoneSpecValid (s : Str) : Prop :=
  s.length = 10 ∧ ∀ c ∈ s, c.isDigit = true

/-! ## Concrete fixtures -/

/-- A record named "Ann" with no other fields. -/
def annRecord : Record := mkRecord (str "Ann")

/-- A record named "Joan" with no other fields. -/
def joanRecord : Record := mkRecord (str "Joan")

/-- A two-contact book holding "Ann" and "Joan". -/
def demoBook : AddressBook :=
  [(str "Ann", annRecord), (str "Joan", joanRecord)]

/-- A note with the single tag `#a`. -/
def tagNote : Note := ⟨str "n1", str "text", [str "#a"]⟩

/-- A one-note notebook holding `tagNote`. -/
def tagBook : NoteBook := [(str "n1", tagNote)]

/-! ## Helper lemmas -/

theorem toLower_digitChar (x : Nat) (h : x < 10) :
    (digitChar x).toLower = digitChar x := by
  interval_cases x <;> decide

theorem toLower_digitChar_mod (n : Nat) :
    (digitChar (n % 10)).toLower = digitChar (n % 10) :=
  toLower_digitChar _ (Nat.mod_lt _ (by norm_num))

/-- The rendered birthday contains only digits and dots, so lowercasing
it is the identity. -/
theorem lowerStr_renderDateDMY (dt : SDate) :
    lowerStr (renderDateDMY dt) = renderDateDMY dt := by
  simp [lowerStr, renderDateDMY, pad2, pad4, toLower_digitChar_mod]

theorem startsWithAny_map_lowerStr (s : Str) (args : List Str) :
    startsWithAny s (args.map lowerStr) =
      args.any fun t => startsWith (lowerStr t) s := by
  simp only [startsWithAny, List.any_map]
  rfl

theorem bool_guard_any {α : Type} (l : List α) (f : α → Bool) :
    ((!l.isEmpty) && l.any f) = l.any f := by
  cases l <;> simp

theorem any_or {α : Type} (l : List α) (f g : α → Bool) :
    (l.any fun x => f x || g x) = (l.any f || l.any g) := by
  induction l with
  | nil => rfl
  | cons h t ih =>
    simp only [List.any_cons, ih]
    cases f h <;> cases g h <;> simp

theorem any_false {α : Type} (l : List α) : (l.any fun _ => false) = false := by
  simp

theorem any_exchange {α β : Type} (l : List α) (m : List β) (f : α → β → Bool) :
    (l.any fun a => m.any fun b => f a b) = (m.any fun b => l.any fun a => f a b) := by
  rw [Bool.eq_iff_iff]
  simp only [List.any_eq_true]
  constructor
  · rintro ⟨a, ha, b, hb, h⟩
    exact ⟨b, hb, a, ha, h⟩
  · rintro ⟨b, hb, a, ha, h⟩
    exact ⟨a, ha, b, hb, h⟩

/-- The per-record source check coincides with the spec's wording. -/
theorem recordMatches_eq_specMatches (args : List Str) (r : Record) :
    recordMatches (args.map lowerStr) r = specMatches args r := by
  unfold recordMatches specMatches startsCI
  simp only [startsWithAny_map_lowerStr, bool_guard_any, any_or]
  rw [any_exchange r.phones args, any_exchange r.emails args]
  cases r.address <;> cases r.birthday <;>
    simp [lowerStr_renderDateDMY, startsWithAny_map_lowerStr, any_false]

theorem dictGet_dictInsert (k k' : Str) (v : Record) (l : AddressBook) :
    dictGet k (dictInsert k' v l) = if k' = k then some v else dictGet k l := by
  induction l with
  | nil => simp [dictInsert, dictGet]
  | cons p t ih =>
    obtain ⟨hk, hv⟩ := p
    by_cases e : hk = k'
    · subst e
      by_cases e2 : hk = k <;> simp [dictInsert, dictGet, e2]
    · simp only [dictInsert, if_neg e]
      by_cases e2 : hk = k
      · subst e2
        have e' : k' ≠ hk := fun h => e h.symm
        simp [dictGet, e']
      · simp [dictGet, e2, ih]

theorem dictGet_eq_none_of_not_mem (k : Str) (l : AddressBook)
    (h : k ∉ l.map Prod.fst) : dictGet k l = none := by
  induction l with
  | nil => rfl
  | cons p t ih =>
    obtain ⟨a, b⟩ := p
    simp only [List.map_cons, List.mem_cons] at h
    push_neg at h
    simp only [dictGet, if_neg (fun e : a = k => h.1 e.symm)]
    exact ih h.2

theorem dictGet_dictDelete_self (k : Str) (l : AddressBook)
    (h : (l.map Prod.fst).Nodup) : dictGet k (dictDelete k l) = none := by
  induction l with
  | nil => rfl
  | cons p t ih =>
    obtain ⟨a, b⟩ := p
    simp only [List.map_cons, List.nodup_cons] at h
    by_cases e : a = k
    · subst e
      simpa [dictDelete] using dictGet_eq_none_of_not_mem _ _ h.1
    · simp only [dictDelete, if_neg e, dictGet, if_neg e]
      exact ih h.2

/-- `upcoming_entry` matches the spec's occurrence/window/shift pipeline. -/
theorem upcomingEntry_eq_spec (today bday : SDate) (days : Nat) :
    upcomingEntry today bday days =
      match occurrenceSpec today bday with
      | none => none
      | some occ =>
        if dateLe today occ && dateLe occ (addDays today days) then
          some (shiftSpec occ)
        else none := by
  unfold upcomingEntry isDateWithinDays occurrenceSpec
  cases hm : mkDate today.year bday.month bday.day with
  | none => simp
  | some thisYear =>
    by_cases hlt : dateLt thisYear today
    · simp only [hlt, if_true, if_pos]
      cases hr : mkDate (today.year + 1) bday.month bday.day with
      | none => simp
      | some rolled =>
        by_cases hw : (dateLe today rolled && dateLe rolled (addDays today days)) = true
        · simp [hw, hm, hlt, hr, shiftSpec, adjustToWeekday]
        · simp only [Bool.not_eq_true] at hw
          simp [hw]
    · simp only [Bool.not_eq_true] at hlt
      simp only [hlt, Bool.false_eq_true, if_false]
      by_cases hw : (dateLe today thisYear && dateLe thisYear (addDays today days)) = true
      · simp [hw, hm, hlt, shiftSpec, adjustToWeekday]
      · simp only [Bool.not_eq_true] at hw
        simp [hw]

/-- With no search terms every per-record check is false. -/
theorem recordMatches_nil (r : Record) : recordMatches [] r = false := by
  unfold recordMatches
  cases r.address <;> cases r.birthday <;> simp [startsWithAny]

theorem matchingRecords_nil_args (book : AddressBook) :
    matchingRecords [] book = [] := by
  unfold matchingRecords
  exact List.filter_eq_nil_iff.mpr fun r _ => by simp [recordMatches_nil]

/-- `edit_field` specialized to the `birthday` branch. -/
theorem editField_birthday_eq (today : SDate) (r : Record) (oldv newv : Str)
    (ab : Option AddressBook) :
    editField today r (str "birthday") oldv newv ab =
      (if newv ≠ [] then
        (mkBirthday today newv).map fun d =>
          ({ r with birthday := some d }, ab,
            str "Birthday updated to '" ++ newv ++ str "'.")
      else .ok ({ r with birthday := none }, ab, str "Birthday removed.")) := by
  unfold editField
  rw [if_neg (by decide), if_neg (by decide), if_neg (by decide),
    if_neg (by decide), if_pos rfl]

/-! ## Claim theorems -/

/-- C8: a string of exactly 10 decimal digits yields a successfully
constructed `Phone` storing (and rendering back to) that same string;
any other string makes the constructor raise the validation
`ValueError`. -/
theorem phone_validation_spec :
    ∀ s : Str,
      (mkPhone s = .ok s ↔ phoneSpecValid s) ∧
      (mkPhone s = .error (str "Phone number must be 10 digits") ↔
        ¬ phoneSpecValid s) := by
  intro s
  unfold mkPhone phoneSpecValid
  by_cases h : s.length = 10 ∧ s.all Char.isDigit
  · rw [if_pos h]
    exact ⟨⟨fun _ => ⟨h.1, List.all_eq_true.mp h.2⟩, fun _ => rfl⟩,
      ⟨fun he => Except.noConfusion he,
       fun hn => absurd ⟨h.1, List.all_eq_true.mp h.2⟩ hn⟩⟩
  · rw [if_neg h]
    exact ⟨⟨fun he => Except.noConfusion he,
       fun hv => absurd ⟨hv.1, List.all_eq_true.mpr hv.2⟩ h⟩,
      ⟨fun _ hv => h ⟨hv.1, List.all_eq_true.mpr hv.2⟩, fun _ => rfl⟩⟩

/-- C9: on a record whose phone list contains the valid number `p`,
`edit_phone(p, p)` succeeds but leaves no occurrence of `p`: the append
of the new value happens first, and `remove_phone` then drops every
phone equal to `p`, including the one just added. -/
theorem edit_phone_self_deletes :
    ∀ (r : Record) (p : Str), mkPhone p = .ok p → p ∈ r.phones →
      ∃ r', editPhone r p p = .ok r' ∧ p ∉ r'.phones := by
  intro r p hp _
  refine ⟨removePhone { r with phones := r.phones ++ [p] } p, ?_, ?_⟩
  · unfold editPhone addPhone
    rw [hp]
    rfl
  · simp [removePhone, List.mem_filter]

/-- C9 witness at a concrete record and phone. -/
theorem edit_phone_self_deletes_witness :
    ∃ r', editPhone { annRecord with phones := [str "0123456789"] }
        (str "0123456789") (str "0123456789") = .ok r' ∧
      str "0123456789" ∉ r'.phones :=
  edit_phone_self_deletes _ _ (by rfl) (by decide)

/-- C2 (code bug): `delete_tag` on a note holding exactly the supplied
tag leaves the notebook unchanged — the present-tag branch is `continue`
— and on an absent tag it raises `list.remove`'s `ValueError` instead of
skipping. -/
theorem delete_tag_inverted_behavior :
    deleteTag tagBook (str "n1") [str "#a"] = .ok tagBook ∧
      deleteTag tagBook (str "n1") [str "#b"] =
        .error (str "list.remove(x): x not in list") := by
  constructor <;> rfl

/-- C3 counterexample: the note already carries `#x`; supplying the same
tag without its `#` prefix appends a duplicate `#x` instead of leaving
the tag list unchanged, because the presence check runs before the `#`
normalization. -/
theorem add_tag_unprefixed_duplicate :
    addTag [(str "n1", ⟨str "n1", str "t", [str "#x"]⟩)] (str "n1") [str "x"] =
      .ok [(str "n1", ⟨str "n1", str "t", [str "#x", str "#x"]⟩)] := by
  rfl

/-- C3 amended: `add_tag` appends each tag after prefixing `#` when the
tag does not contain `#`, and suppresses a duplicate only when the
supplied string itself, before normalization, already occurs in the
note's tag list. -/
theorem add_tag_amended :
    ∀ (cur : List Str) (tag : Str),
      (tag ∈ cur → applyAddTags cur [tag] = cur) ∧
      (tag ∉ cur → applyAddTags cur [tag] = cur ++ [normalizeTag tag]) := by
  intro cur tag
  constructor <;> intro h <;> simp [applyAddTags, addTagStep, h]

/-- C3 amended witness: an exact duplicate is skipped, an absent
unprefixed tag is appended with `#`. -/
theorem add_tag_amended_witness :
    applyAddTags [str "#x"] [str "#x"] = [str "#x"] ∧
      applyAddTags [str "#x"] [str "y"] = [str "#x", str "#y"] :=
  ⟨(add_tag_amended [str "#x"] (str "#x")).1 (by decide),
   by rw [(add_tag_amended [str "#x"] (str "y")).2 (by decide)]; decide⟩

/-- The book-level `get_upcoming_birthdays` rows coincide with the
spec-side occurrence/window/shift description, record by record. -/
theorem upcomingRows_eq_spec_rows (today : SDate) (book : AddressBook) (days : Nat) :
    upcomingRows today book days = specUpcomingRows today book days := by
  unfold upcomingRows specUpcomingRows
  induction book with
  | nil => rfl
  | cons p t ih =>
    have hrow : (match p.2.birthday with
        | none => none
        | some b => (upcomingEntry today b days).map (fun c => (p.2.name, c))) =
      (match p.2.birthday with
        | none => none
        | some b =>
          match occurrenceSpec today b with
          | none => none
          | some occ =>
            if dateLe today occ && dateLe occ (addDays today days) then
              some (p.2.name, shiftSpec occ)
            else none) := by
      cases p.2.birthday with
      | none => rfl
      | some b =>
        dsimp only
        rw [upcomingEntry_eq_spec]
        cases occurrenceSpec today b with
        | none => rfl
        | some occ =>
          by_cases hw : (dateLe today occ && dateLe occ (addDays today days)) = true
          · simp [hw]
          · simp only [Bool.not_eq_true] at hw
            simp [hw]
    simp only [List.filterMap_cons]
    rw [hrow, ih]

/-- C1: a record with a birthday is included in
`get_upcoming_birthdays(days)` exactly when this year's occurrence of
the birthday's month/day — rolled to next year's occurrence when it
already passed — falls within `[today, today+days]` inclusive, and the
congratulation date reported is that occurrence shifted +2 days on a
Saturday and +1 on a Sunday (the shift applied after the window check);
with today = 2024-06-10 and days = 7, birthday 12.06.1990 yields
2024-06-12 and birthday 15.06.1990 yields 2024-06-17. -/
theorem upcoming_birthdays_spec :
    (∀ (today : SDate) (book : AddressBook) (days : Nat),
        upcomingRows today book days = specUpcomingRows today book days) ∧
      upcomingEntry ⟨2024, 6, 10⟩ ⟨1990, 6, 12⟩ 7 = some ⟨2024, 6, 12⟩ ∧
      upcomingEntry ⟨2024, 6, 10⟩ ⟨1990, 6, 15⟩ 7 = some ⟨2024, 6, 17⟩ :=
  ⟨upcomingRows_eq_spec_rows, by rfl, by rfl⟩

/-- C4: a record is collected by `search_in_fields` exactly when its
name, one of its phones, one of its emails, its address, or its birthday
rendered as `DD.MM.YYYY` starts case-insensitively with at least one of
the terms (prefix match, OR across terms and fields); concretely, the
term "an" matches the record named "Ann" but not the one named "Joan". -/
theorem search_prefix_match_spec :
    (∀ (args : List Str) (book : AddressBook) (r : Record),
        r ∈ matchingRecords args book ↔
          r ∈ book.map Prod.snd ∧ specMatches args r = true) ∧
      matchingRecords [str "an"] demoBook = [annRecord] := by
  constructor
  · intro args book r
    simp [matchingRecords, List.mem_filter, recordMatches_eq_specMatches]
  · rfl

/-- C7 counterexample: `AddressBook.search_in_fields` itself does not
raise on zero search terms — on a non-empty book it returns the no-match
signal `None`. -/
theorem search_zero_terms_no_error :
    searchInFields [] demoBook = .nullResult := by
  rfl

/-- C7 amended: the zero-terms `ValueError` lives in the CLI handler
`search_contact`, which raises "No search input provided." before ever
calling `search_in_fields`; the model method itself returns `None` on a
non-empty book and the "No contacts found." string on an empty one. -/
theorem search_zero_terms_amended :
    ∀ book : AddressBook,
      searchContact [] book = .error (str "No search input provided.") ∧
      searchInFields [] book =
        (if book.isEmpty then .message (str "No contacts found.")
         else .nullResult) := by
  intro book
  refine ⟨rfl, ?_⟩
  cases book with
  | nil => rfl
  | cons p t =>
    simp [searchInFields, matchingRecords_nil_args]

/-- C10: on an empty address book `search_in_fields` returns the string
"No contacts found." whatever the terms are, while on a non-empty book
with no matching record it returns Python's `None` — two distinct
return values for the two situations. -/
theorem search_empty_vs_nomatch :
    ∀ (args : List Str) (book : AddressBook),
      (book = [] → searchInFields args book = .message (str "No contacts found.")) ∧
      (book ≠ [] → matchingRecords args book = [] →
        searchInFields args book = .nullResult) := by
  intro args book
  constructor
  · rintro rfl
    rfl
  · intro hne hm
    cases book with
    | nil => exact absurd rfl hne
    | cons p t => simp [searchInFields, hm]

/-- C10 witness: a term matching nothing on the demo book, and the
empty book. -/
theorem search_empty_vs_nomatch_witness :
    searchInFields [str "zz"] [] = .message (str "No contacts found.") ∧
      searchInFields [str "zz"] demoBook = .nullResult :=
  ⟨(search_empty_vs_nomatch [str "zz"] []).1 rfl,
   (search_empty_vs_nomatch [str "zz"] demoBook).2 (by decide) (by rfl)⟩

/-- C5: on a record keyed in the book under its name, `edit_field` on
`name` with a non-empty new name re-keys the book — the old name no
longer resolves, the new name resolves to the renamed record with every
other field untouched — and with no container reference it raises the
configuration `ValueError` without touching anything. -/
theorem edit_name_rekeys :
    (∀ (today : SDate) (book : AddressBook) (r : Record) (oldv newName : Str),
      (book.map Prod.fst).Nodup →
      dictGet r.name book = some r →
      newName ≠ [] →
      newName ≠ r.name →
      editField today r (str "name") oldv newName (some book) =
        .ok ({ r with name := newName },
          some (addRecord (deleteRecord book r.name) { r with name := newName }),
          str "Name updated from '" ++ r.name ++ str "' to '" ++ newName ++ str "'.") ∧
      findRecord (addRecord (deleteRecord book r.name) { r with name := newName })
          r.name = none ∧
      findRecord (addRecord (deleteRecord book r.name) { r with name := newName })
          newName = some { r with name := newName }) ∧
    (∀ (today : SDate) (r : Record) (oldv newv : Str),
      editField today r (str "name") oldv newv none =
        .error (str "AddressBook is required to change the contact's name.")) := by
  refine ⟨?_, ?_⟩
  · intro today book r oldv newName hnd hget hne hneq
    have hbne : book ≠ [] := by
      intro h
      rw [h] at hget
      exact Option.noConfusion hget
    have ht : truthyBook (some book) = true := by
      cases book with
      | nil => exact absurd rfl hbne
      | cons p t => rfl
    refine ⟨?_, ?_, ?_⟩
    · simp [editField, ht, hne]
    · unfold findRecord addRecord deleteRecord
      simp only [hget, Option.isSome_some, if_true]
      rw [dictGet_dictInsert, if_neg hneq]
      exact dictGet_dictDelete_self _ _ hnd
    · unfold findRecord addRecord
      rw [dictGet_dictInsert, if_pos rfl]
  · intro today r oldv newv
    rfl

/-- C5 witness: renaming "Ann" to "Anna" in a one-record book. -/
theorem edit_name_rekeys_witness :
    (editField ⟨2024, 1, 1⟩ annRecord (str "name") [] (str "Anna")
        (some [(str "Ann", annRecord)]) =
      .ok ({ annRecord with name := str "Anna" },
        some (addRecord (deleteRecord [(str "Ann", annRecord)] annRecord.name)
          { annRecord with name := str "Anna" }),
        str "Name updated from '" ++ annRecord.name ++ str "' to '"
          ++ str "Anna" ++ str "'.") ∧
      findRecord (addRecord (deleteRecord [(str "Ann", annRecord)] annRecord.name)
          { annRecord with name := str "Anna" }) annRecord.name = none ∧
      findRecord (addRecord (deleteRecord [(str "Ann", annRecord)] annRecord.name)
          { annRecord with name := str "Anna" }) (str "Anna") =
        some { annRecord with name := str "Anna" }) :=
  edit_name_rekeys.1 ⟨2024, 1, 1⟩ [(str "Ann", annRecord)] annRecord [] (str "Anna")
    (by decide) (by rfl) (by decide) (by decide)

/-- C6: `add_birthday` raises "Birthday is already set" — leaving the
stored birthday as it was, since the raise precedes any assignment —
whenever a birthday is present, and sets it when absent; the generic
`edit_field` birthday branch instead overwrites for any non-empty value
that parses as a valid birthday and clears to absent for an empty value,
in both cases regardless of the previous state. -/
theorem birthday_add_vs_edit :
    (∀ (today : SDate) (r : Record) (s : Str) (b : SDate), r.birthday = some b →
      addBirthday today r s = .error (str "Birthday is already set")) ∧
    (∀ (today : SDate) (r : Record) (s : Str) (d : SDate), r.birthday = none →
      mkBirthday today s = .ok d →
      addBirthday today r s = .ok { r with birthday := some d }) ∧
    (∀ (today : SDate) (r : Record) (oldv newv : Str) (d : SDate)
        (ab : Option AddressBook),
      newv ≠ [] → mkBirthday today newv = .ok d →
      editField today r (str "birthday") oldv newv ab =
        .ok ({ r with birthday := some d }, ab,
          str "Birthday updated to '" ++ newv ++ str "'.")) ∧
    (∀ (today : SDate) (r : Record) (oldv : Str) (ab : Option AddressBook),
      editField today r (str "birthday") oldv [] ab =
        .ok ({ r with birthday := none }, ab, str "Birthday removed.")) := by
  refine ⟨?_, ?_, ?_, ?_⟩
  · intro today r s b hb
    unfold addBirthday
    rw [hb]
  · intro today r s d hb hm
    unfold addBirthday
    rw [hb, hm]
    rfl
  · intro today r oldv newv d ab hne hm
    rw [editField_birthday_eq, if_pos hne, hm]
    rfl
  · intro today r oldv ab
    rw [editField_birthday_eq, if_neg (fun h => h rfl)]

/-- C6 witness: the concrete contrast on a record with birthday
1990-01-01 — the add path errors, the fresh add sets, the edit path
overwrites to 1992-02-02 and clears on the empty value. -/
theorem birthday_add_vs_edit_witness :
    addBirthday ⟨2024, 6, 10⟩ { annRecord with birthday := some ⟨1990, 1, 1⟩ }
        (str "02.02.1992") = .error (str "Birthday is already set") ∧
      addBirthday ⟨2024, 6, 10⟩ annRecord (str "01.01.1990") =
        .ok { annRecord with birthday := some ⟨1990, 1, 1⟩ } ∧
      editField ⟨2024, 6, 10⟩ { annRecord with birthday := some ⟨1990, 1, 1⟩ }
          (str "birthday") [] (str "02.02.1992") none =
        .ok ({ annRecord with birthday := some ⟨1992, 2, 2⟩ }, none,
          str "Birthday updated to '" ++ str "02.02.1992" ++ str "'.") ∧
      editField ⟨2024, 6, 10⟩ { annRecord with birthday := some ⟨1990, 1, 1⟩ }
          (str "birthday") [] [] none =
        .ok ({ annRecord with birthday := none }, none, str "Birthday removed.") :=
  ⟨birthday_add_vs_edit.1 _ _ (str "02.02.1992") ⟨1990, 1, 1⟩ rfl,
   birthday_add_vs_edit.2.1 _ _ _ ⟨1990, 1, 1⟩ rfl (by rfl),
   birthday_add_vs_edit.2.2.1 _ _ [] _ ⟨1992, 2, 2⟩ none (by decide) (by rfl),
   birthday_add_vs_edit.2.2.2 _ _ [] none⟩

end Assistant
